import Mathlib

/-!
Shallow embedding of the RustAIgent core (src/main.rs): the conversation
data model, provider dispatch, retrying transport, response parsing and
the concurrent batch path, together with theorems settling the frozen
claims about them.

Conventions of the embedding:
* `serde_json::Value` is the inductive `Json` below; numbers are carried
  as `Int` (no claim touches float arithmetic, so `f32` values such as
  `temperature` are represented by an abstract integer stand-in).
* The process environment is a lookup function `Env := String → Option String`.
* The network is an oracle `transport : Nat → SendResult` giving, per
  attempt index, the outcome of `client.post(...).send()` followed by
  `resp.json()`: a send-level failure, or an HTTP success whose body
  either deserializes to a `Json` value or does not.
* Sleeps are recorded as a list of millisecond durations, attempts as a
  count, so the retry/backoff behaviour is observable.
* `send_request` takes `&self` in the source and never writes to
  `self.conversation`; the embedding makes the (unchanged) state after
  the call explicit in the `conversationAfter` field of its outcome.
-/

/-- JSON values, mirroring `serde_json::Value` (numbers as `Int`). -/
inductive Json where
  | null : Json
  | bool : Bool → Json
  | num : Int → Json
  | str : String → Json
  | arr : List Json → Json
  | obj : List (String × Json) → Json

namespace Json

/-- Field lookup, mirroring `value["k"]`: indexing a non-object (or a
missing key) yields `Null`. -/
def getField : Json → String → Json
  | .obj fields, k =>
      match fields.find? (fun p => p.1 == k) with
      | some p => p.2
      | none => .null
  | _, _ => .null

/-- Mirror of `Value::as_array`. -/
def asArr : Json → Option (List Json)
  | .arr xs => some xs
  | _ => none

/-- Mirror of `Value::as_str`. -/
def asStr : Json → Option String
  | .str s => some s
  | _ => none

/-- Whether an object carries a given key (false on non-objects). -/
def hasField (j : Json) (k : String) : Bool :=
  match j with
  | .obj fields => fields.any (fun p => p.1 == k)
  | _ => false

end Json

/-- Mirror of `struct ChatMessage { role, content, name: Option<String> }`. -/
structure ChatMessage where
  role : String
  content : String
  name : Option String
deriving Repr, DecidableEq

/-- Mirror of `struct FunctionDefinition { name, description, parameters }`. -/
structure FunctionDefinition where
  name : String
  description : String
  parameters : Json

/-- Serde serialization of a `ChatMessage`; `name` is skipped when `None`
(`skip_serializing_if = "Option::is_none"`). -/
def ChatMessage.toJson (m : ChatMessage) : Json :=
  .obj ([("role", .str m.role), ("content", .str m.content)] ++
    (match m.name with
     | some n => [("name", .str n)]
     | none => []))

/-- Serde deserialization of a `ChatMessage` from a `Json` value
(`serde_json::from_value`): `role` and `content` are required strings,
`name` is an optional string (absent or `null` gives `None`); a
non-object or ill-typed field fails. -/
def ChatMessage.fromJson (j : Json) : Option ChatMessage :=
  match j with
  | .obj _ =>
      match j.getField "role", j.getField "content", j.getField "name" with
      | .str r, .str c, .null => some ⟨r, c, none⟩
      | .str r, .str c, .str n => some ⟨r, c, some n⟩
      | _, _, _ => none
  | _ => none

/-- Serde serialization of a `FunctionDefinition`. -/
def FunctionDefinition.toJson (f : FunctionDefinition) : Json :=
  .obj [("name", .str f.name), ("description", .str f.description),
        ("parameters", f.parameters)]

/-- Serialization of `ChatCompletionRequest` (`serde_json::to_value(&req)`):
optional fields are skipped when `None`, exactly as the serde attributes
say; in `send_request` the code always passes `Some` for `functions`,
`function_call` and `temperature`. -/
def chatCompletionRequestToJson (model : String) (messages : List ChatMessage)
    (functions : Option (List FunctionDefinition)) (function_call : Option String)
    (max_tokens : Nat) (temperature : Option Int) : Json :=
  .obj ([("model", .str model),
         ("messages", .arr (messages.map ChatMessage.toJson))] ++
    (match functions with
     | some fs => [("functions", .arr (fs.map FunctionDefinition.toJson))]
     | none => []) ++
    (match function_call with
     | some c => [("function_call", .str c)]
     | none => []) ++
    [("max_tokens", .num max_tokens)] ++
    (match temperature with
     | some t => [("temperature", .num t)]
     | none => []))

/-- Outcome of one `client.post(url)...send()` followed by `resp.json()`:
either the send itself fails (connection error / timeout), or it succeeds
and the body deserializes to `some` JSON value or to `none`
(non-deserializable body, making `resp.json().await?` fail). -/
inductive SendResult where
  | sendErr : SendResult
  | ok : Option Json → SendResult

/-- Errors a call can surface, mirroring the `anyhow` errors of the source. -/
inductive ReqError where
  | transport : ReqError
  | decode : ReqError
  | missingKey : String → ReqError
  | malformed : ReqError
  | serde : ReqError
  | unreachableHit : ReqError
deriving Repr, DecidableEq

/-- The environment lookup (`env::var`), `none` when the variable is unset. -/
def Env : Type := String → Option String

/-- The backoff computation `self.backoff_base * 2u64.pow(attempt as u32)`
of the source: both the power and the product are u64 operations, which
wrap modulo 2 ^ 64 (release-profile semantics), so the slept duration is
the wrapped value, not the unbounded product.  The wrap is reachable:
`retry_count` is a u8, so `attempt` can reach 254, far past 63. -/
def backoffMillis (B attempt : Nat) : Nat :=
  (B * (2 ^ attempt % 2 ^ 64)) % 2 ^ 64

/-- The loop body of `request_with_retry`: `attempt` is the loop index,
`fuel` the number of iterations the `for attempt in 0..retry_count` loop
still has (so the loop is entered with `fuel = R`); `B` is
`backoff_base`, `R` is `retry_count`.  Returns the result, the list of
backoff sleeps (milliseconds, in order) and the number of attempts made.
Running out of fuel is the loop falling through to `unreachable!()`. -/
def requestLoop (transport : Nat → SendResult) (B R : Nat) :
    Nat → Nat → Except ReqError Json × List Nat × Nat
  | _, 0 => (.error .unreachableHit, [], 0)
  | attempt, fuel + 1 =>
      match transport attempt with
      | .ok (some j) => (.ok j, [], 1)
      | .ok none => (.error .decode, [], 1)
      | .sendErr =>
          if attempt < R - 1 then
            let rest := requestLoop transport B R (attempt + 1) fuel
            (rest.1, backoffMillis B attempt :: rest.2.1, rest.2.2 + 1)
          else
            (.error .transport, [], 1)

/-- Mirror of `Agent::request_with_retry` (the URL and body do not affect
control flow, so the transport oracle already accounts for them). -/
def requestWithRetry (transport : Nat → SendResult) (B R : Nat) :
    Except ReqError Json × List Nat × Nat :=
  requestLoop transport B R 0 R

/-- Mirror of `struct Agent` (the `reqwest::Client` handle carries no
observable state and is omitted). -/
structure Agent where
  api_key : String
  google_api_key : Option String
  provider : String
  conversation : List ChatMessage
  functions : List FunctionDefinition
  max_tokens : Nat
  temperature : Int
  retry_count : Nat
  backoff_base : Nat

/-- The seven tool descriptors built in `Agent::new`. -/
def defaultFunctions : List FunctionDefinition :=
  [⟨"read_file", "Read a file from the filesystem",
    .obj [("type", .str "object"),
          ("properties", .obj [("path", .obj [("type", .str "string")])]),
          ("required", .arr [.str "path"])]⟩,
   ⟨"write_file", "Write content to a file",
    .obj [("type", .str "object"),
          ("properties", .obj [("path", .obj [("type", .str "string")]),
                               ("content", .obj [("type", .str "string")])]),
          ("required", .arr [.str "path", .str "content"])]⟩,
   ⟨"delete_file", "Delete a file from the filesystem",
    .obj [("type", .str "object"),
          ("properties", .obj [("path", .obj [("type", .str "string")])]),
          ("required", .arr [.str "path"])]⟩,
   ⟨"list_dir", "List files in a directory",
    .obj [("type", .str "object"),
          ("properties", .obj [("path", .obj [("type", .str "string")])]),
          ("required", .arr [.str "path"])]⟩,
   ⟨"run_command", "Run a shell command",
    .obj [("type", .str "object"),
          ("properties", .obj [("command", .obj [("type", .str "string")])]),
          ("required", .arr [.str "command"])]⟩,
   ⟨"fetch_url", "Perform a GET request to a URL",
    .obj [("type", .str "object"),
          ("properties", .obj [("url", .obj [("type", .str "string")])]),
          ("required", .arr [.str "url"])]⟩,
   ⟨"eval_code", "Compile and run Rust code snippet",
    .obj [("type", .str "object"),
          ("properties", .obj [("code", .obj [("type", .str "string")])]),
          ("required", .arr [.str "code"])]⟩]

/-- The system prompt installed as the first conversation turn. -/
def systemPrompt : String :=
  "You are RustAIgent, a versatile Rust coding assistant with tools for file I/O, directory ops, shell commands, HTTP fetches, and code evaluation. Switch between OpenAI, Claude, Ollama, Google. Use rich function calling. Respond concisely in Rust style."

/-- Bounded decimal parse mirroring `str.parse::<uN>()` for the unsigned
width `w`: the parse fails — and the caller falls back to its default —
when the string is not a number or the value does not fit the width. -/
def parseUInt (w : Nat) (s : String) : Option Nat :=
  (String.toNat? s).bind (fun v => if v < 2 ^ w then some v else none)

/-- Mirror of `Agent::new`: reads optional environment values with the
source defaults and widths (`MAX_TOKENS` u16 default 1024, `RETRY_COUNT`
u8 default 3, `BACKOFF_BASE_MS` u64 default 500; the `f32` `TEMPERATURE`
default 0.7 is carried as the abstract stand-in 0), takes
`GOOGLE_API_KEY` as an `Option` without failing, and seeds the
conversation with the single system turn.  Construction is total: it
always returns an `Agent`. -/
def Agent.new (env : Env) (api_key provider : String) : Agent :=
  { api_key := api_key
    google_api_key := env "GOOGLE_API_KEY"
    provider := provider
    conversation := [⟨"system", systemPrompt, none⟩]
    functions := defaultFunctions
    max_tokens := ((env "MAX_TOKENS").bind (parseUInt 16)).getD 1024
    temperature := ((env "TEMPERATURE").bind String.toInt?).getD 0
    retry_count := ((env "RETRY_COUNT").bind (parseUInt 8)).getD 3
    backoff_base := ((env "BACKOFF_BASE_MS").bind (parseUInt 64)).getD 500 }

/-- Model-name selection at the top of `send_request`. -/
def Agent.modelName (env : Env) (a : Agent) : String :=
  match a.provider with
  | "openai" => (env "MODEL_NAME").getD "gpt-4o-mini"
  | "claude" => "claude-2"
  | "ollama" => "rust-ai-agent"
  | "google" => "chat-bison-001"
  | _ => "gpt-4o-mini"

/-- The anthropic body: model, the newline-joined `"[role] content"`
transcript and `max_tokens_to_sample`. -/
def Agent.claudeBody (a : Agent) : Json :=
  .obj [("model", .str "claude-2"),
        ("prompt", .str (String.intercalate "\n"
          (a.conversation.map (fun m => "[" ++ m.role ++ "] " ++ m.content)))),
        ("max_tokens_to_sample", .num a.max_tokens)]

/-- The google body: the history rendered as `{author, content}` pairs. -/
def Agent.googleBody (a : Agent) : Json :=
  .obj [("messages", .arr (a.conversation.map (fun m =>
    .obj [("author", .str m.role), ("content", .str m.content)])))]

/-- A wire request as issued by `request_with_retry`: target URL, the
bearer-token header (`bearer_auth`), and the JSON body. -/
structure WireRequest where
  url : String
  bearer : Option String
  body : Json

/-- The generateMessage endpoint up to the query-string key, as written
in the `format!` call of the google branch. -/
def googleUrlBase : String :=
  "https://generativelanguage.googleapis.com/v1beta2/models/chat-bison-001:generateMessage?key="

/-- The provider dispatch of `send_request`: picks the URL and the body
actually sent, failing before any request is issued when the google key
is missing (`context("Missing GOOGLE_API_KEY")?`). -/
def Agent.dispatch (a : Agent) (body : Json) : Except ReqError (String × Json) :=
  match a.provider with
  | "openai" => .ok ("https://api.openai.com/v1/chat/completions", body)
  | "claude" => .ok ("https://api.anthropic.com/v1/complete", a.claudeBody)
  | "ollama" => .ok ("http://localhost:11434/v1/completions", body)
  | "google" =>
      match a.google_api_key with
      | some gkey => .ok (googleUrlBase ++ gkey, a.googleBody)
      | none => .error (.missingKey "GOOGLE_API_KEY")
  | _ => .ok ("https://api.openai.com/v1/chat/completions", body)

/-- The response extraction at the end of `send_request`: read
`choices[0].message` when present, otherwise fall back to the
`completion` string field, otherwise the "Unexpected response format"
error. -/
def parseResponse (response_json : Json) : Except ReqError ChatMessage :=
  match (response_json.getField "choices").asArr.bind List.head? with
  | some choice =>
      match ChatMessage.fromJson (choice.getField "message") with
      | some msg => .ok msg
      | none => .error .serde
  | none =>
      match (response_json.getField "completion").asStr with
      | some text => .ok ⟨"assistant", text, none⟩
      | none => .error .malformed

/-- Everything observable about one `send_request` call: its result, the
wire request it issued (none when it failed before issuing one), the
backoff sleeps, the number of transport attempts, and the agent
conversation after the call. -/
structure SendOutcome where
  result : Except ReqError ChatMessage
  request : Option WireRequest
  sleeps : List Nat
  attempts : Nat
  conversationAfter : List ChatMessage

/-- The common request payload built at the top of `send_request`
(`serde_json::to_value(&req)?`): the selected model name, the full
conversation, the full tool catalog, the forced or `auto` function call,
and the token/temperature settings. -/
def Agent.commonBody (env : Env) (a : Agent) (func_call : Option String) : Json :=
  chatCompletionRequestToJson (a.modelName env) a.conversation
    (some a.functions) (some (func_call.getD "auto")) a.max_tokens (some a.temperature)

/-- Mirror of `Agent::send_request`.  It builds the common
`ChatCompletionRequest` payload, dispatches per provider, runs the
retrying transport and extracts the reply message.  The method takes
`&self` in the source: `self.conversation` is never written, so the
conversation after the call is the conversation before it, in every
branch. -/
def Agent.sendRequest (env : Env) (a : Agent) (transport : Nat → SendResult)
    (func_call : Option String) : SendOutcome :=
  match a.dispatch (a.commonBody env func_call) with
  | .error e =>
      { result := .error e, request := none, sleeps := [], attempts := 0,
        conversationAfter := a.conversation }
  | .ok (url, sentBody) =>
      { result :=
          match (requestWithRetry transport a.backoff_base a.retry_count).1 with
          | .error e => .error e
          | .ok response_json => parseResponse response_json
        request := some ⟨url, some a.api_key, sentBody⟩
        sleeps := (requestWithRetry transport a.backoff_base a.retry_count).2.1
        attempts := (requestWithRetry transport a.backoff_base a.retry_count).2.2
        conversationAfter := a.conversation }

/-- Mirror of `Agent::clone_for_batch`: a fresh agent from `Agent::new`
with the configuration of the caller copied over and a two-turn
conversation: the first (system) turn of the caller plus one user turn
holding the prompt. -/
def Agent.cloneForBatch (env : Env) (a : Agent) (user_input : String) : Agent :=
  let cloned := Agent.new env a.api_key a.provider
  { cloned with
      google_api_key := a.google_api_key
      max_tokens := a.max_tokens
      temperature := a.temperature
      retry_count := a.retry_count
      backoff_base := a.backoff_base
      conversation := [a.conversation.headD ⟨"system", systemPrompt, none⟩,
                       ⟨"user", user_input, none⟩]
      functions := a.functions }

/-- Mirror of `Except.toOption` for collecting batch successes. -/
def exceptToOption : Except ReqError ChatMessage → Option ChatMessage
  | .ok msg => some msg
  | .error _ => none

/-- The spawned batch tasks in spawn order: task `i` runs
`clone_for_batch(prompts[i]).send_request(None)` against its own
transport oracle `transports i`; `idx` is the spawn index of the first
listed prompt. -/
def Agent.batchOutcomes (env : Env) (a : Agent) (transports : Nat → Nat → SendResult) :
    List String → Nat → List SendOutcome
  | [], _ => []
  | p :: ps, idx =>
      (a.cloneForBatch env p).sendRequest env (transports idx) none ::
        a.batchOutcomes env transports ps (idx + 1)

/-- Mirror of `Agent::send_batch_requests`: `join_all` returns the task
results in spawn order, and the collection loop keeps exactly the
successful messages (`if let Ok(Ok(msg))`), skipping failures. -/
def Agent.sendBatchRequests (env : Env) (a : Agent)
    (transports : Nat → Nat → SendResult) (prompts : List String) : List ChatMessage :=
  (a.batchOutcomes env transports prompts 0).filterMap
    (fun o => exceptToOption o.result)

/-! ## Concrete fixtures used by witnesses and counterexamples -/

/-- An empty process environment: every variable unset. -/
def env0 : Env := fun _ => none

/-- An environment carrying only a google API key. -/
def envG : Env := fun k => if k == "GOOGLE_API_KEY" then some "gk" else none

/-- A transport whose send always fails (connection error / timeout). -/
def tFailAll : Nat → SendResult := fun _ => .sendErr

/-- A well-formed completions-style wire response. -/
def okResp : Json :=
  .obj [("choices", .arr [.obj [("message",
    .obj [("role", .str "assistant"), ("content", .str "ok")])]])]

/-- A wire response whose message carries a role that is neither
assistant nor tool. -/
def oddRoleResp : Json :=
  .obj [("choices", .arr [.obj [("message",
    .obj [("role", .str "tester"), ("content", .str "ok")])]])]

/-- A transport that always succeeds with the given payload. -/
def tOk (j : Json) : Nat → SendResult := fun _ => .ok (some j)

/-- A transport failing on attempts 0 and 1 and succeeding on attempt 2. -/
def tSucceedAt2 : Nat → SendResult :=
  fun i => if i < 2 then .sendErr else .ok (some (.str "payload"))

/-- The agents used as concrete witnesses, one per provider of interest. -/
def agentOpenai : Agent := Agent.new env0 "sk" "openai"

/-- A google agent built without the google key in the environment. -/
def agentGoogleNoKey : Agent := Agent.new env0 "sk" "google"

/-- A google agent built with the google key present. -/
def agentGoogle : Agent := Agent.new envG "sk" "google"

/-- A local-daemon (ollama) agent. -/
def agentOllama : Agent := Agent.new env0 "sk" "ollama"

/-- A claude (alternate-prose) agent. -/
def agentClaude : Agent := Agent.new env0 "sk" "claude"

/-- The system turn every fresh agent starts with. -/
def sysTurn : ChatMessage := ⟨"system", systemPrompt, none⟩

/-- Per-task transports for a three-prompt batch whose middle task always
fails at the transport level while the others succeed. -/
def transports3 : Nat → Nat → SendResult :=
  fun i => if i == 1 then tFailAll else tOk okResp

/-- A wire response with an empty `choices` array and a `completion`
string. -/
def emptyChoicesResp : Json :=
  .obj [("choices", .arr []), ("completion", .str "hi")]

/-! ## Helper lemmas -/

/-- If every attempt from `attempt` up to `R` fails at the send level,
the loop returns the transport error after sleeping the wrapped backoff
`backoffMillis B i` for each `i` from `attempt` to `R - 2` and making
`R - attempt` attempts. -/
theorem requestLoop_allFail (transport : Nat → SendResult) (B R : Nat) :
    ∀ fuel attempt, attempt + fuel = R → attempt < R →
      (∀ i, attempt ≤ i → i < R → transport i = .sendErr) →
      requestLoop transport B R attempt fuel =
        (.error .transport,
         (List.range' attempt (R - 1 - attempt)).map (fun i => backoffMillis B i),
         R - attempt) := by
  intro fuel
  induction fuel with
  | zero => intro attempt hsum hlt _; omega
  | succ fuel ih =>
      intro attempt hsum hlt hfail
      have ht : transport attempt = .sendErr := hfail attempt (Nat.le_refl _) hlt
      by_cases hg : attempt < R - 1
      · have hrec := ih (attempt + 1) (by omega) (by omega)
          (fun i hi hiR => hfail i (by omega) hiR)
        simp only [requestLoop, ht, if_pos hg, hrec]
        have hr : R - 1 - attempt = (R - 1 - (attempt + 1)) + 1 := by omega
        simp only [hr, List.range'_succ, List.map_cons, Prod.mk.injEq,
          List.cons.injEq, true_and]
        omega
      · simp only [requestLoop, ht, if_neg hg]
        have h1 : R - 1 - attempt = 0 := by omega
        have h2 : R - attempt = 1 := by omega
        rw [h1, h2]
        rfl

/-- If every attempt before `k` fails at the send level and attempt `k`
gets an HTTP response, the loop stops at attempt `k`: it returns the
decoded payload (or the decode error when the body is not JSON), slept
the wrapped backoff `backoffMillis B i` for each `i < k`, and made
`k + 1 - attempt` attempts. -/
theorem requestLoop_firstOk (transport : Nat → SendResult) (B R : Nat) (b : Option Json) (k : Nat) :
    ∀ fuel attempt, attempt + fuel = R → attempt ≤ k → k < R →
      (∀ i, attempt ≤ i → i < k → transport i = .sendErr) →
      transport k = .ok b →
      requestLoop transport B R attempt fuel =
        ((match b with | some j => .ok j | none => .error .decode),
         (List.range' attempt (k - attempt)).map (fun i => backoffMillis B i),
         k - attempt + 1) := by
  intro fuel
  induction fuel with
  | zero => intro attempt hsum hak hkR _ _; omega
  | succ fuel ih =>
      intro attempt hsum hak hkR hfail hok
      by_cases heq : attempt = k
      · subst heq
        simp only [requestLoop, hok, Nat.sub_self, List.range', List.map_nil]
        cases b <;> rfl
      · have ht : transport attempt = .sendErr := hfail attempt (Nat.le_refl _) (by omega)
        have hg : attempt < R - 1 := by omega
        have hrec := ih (attempt + 1) (by omega) (by omega) hkR
          (fun i hi hik => hfail i (by omega) hik) hok
        simp only [requestLoop, ht, if_pos hg, hrec]
        have hr : k - attempt = (k - (attempt + 1)) + 1 := by omega
        simp only [hr, List.range'_succ, List.map_cons, Prod.mk.injEq,
          List.cons.injEq, true_and]

/-- When the dispatch picks a URL and a body, `send_request` is the
retrying transport followed by response extraction, with the bearer
header attached and the conversation untouched. -/
theorem sendRequest_eq_of_dispatch_ok (env : Env) (a : Agent)
    (transport : Nat → SendResult) (func_call : Option String) (url : String) (sb : Json)
    (h : a.dispatch (a.commonBody env func_call) = .ok (url, sb)) :
    a.sendRequest env transport func_call =
      { result :=
          match (requestWithRetry transport a.backoff_base a.retry_count).1 with
          | .error e => .error e
          | .ok rj => parseResponse rj
        request := some ⟨url, some a.api_key, sb⟩
        sleeps := (requestWithRetry transport a.backoff_base a.retry_count).2.1
        attempts := (requestWithRetry transport a.backoff_base a.retry_count).2.2
        conversationAfter := a.conversation } := by
  unfold Agent.sendRequest
  rw [h]

/-- When the dispatch fails (the google key is missing), `send_request`
surfaces that error at once: no wire request, no attempt, no sleep, and
the conversation untouched. -/
theorem sendRequest_eq_of_dispatch_err (env : Env) (a : Agent)
    (transport : Nat → SendResult) (func_call : Option String) (e : ReqError)
    (h : a.dispatch (a.commonBody env func_call) = .error e) :
    a.sendRequest env transport func_call =
      { result := .error e, request := none, sleeps := [], attempts := 0,
        conversationAfter := a.conversation } := by
  unfold Agent.sendRequest
  rw [h]

/-- The conversation after any `send_request` call is the conversation
before it, in every branch (the method takes `&self`). -/
theorem sendRequest_conversationAfter_eq (env : Env) (a : Agent)
    (transport : Nat → SendResult) (func_call : Option String) :
    (a.sendRequest env transport func_call).conversationAfter = a.conversation := by
  unfold Agent.sendRequest
  split <;> rfl

/-! ## Claim theorems -/

/-- C2 (amended): for every retry count R ≥ 1 and backoff base B, the
retrying transport makes attempts 0..R-1; on a send failure at any
attempt except the last it sleeps the wrapped u64 backoff
`(B * 2 ^ attempt) mod 2 ^ 64` milliseconds and retries; on the first
success it returns that payload immediately with no further attempts; if
all R attempts fail it propagates the transport error after exactly R
attempts and R-1 backoff sleeps, one per non-final attempt in order. -/
theorem requestWithRetry_backoff_schedule (transport : Nat → SendResult) (B R : Nat)
    (hR : 1 ≤ R) :
    ((∀ i, i < R → transport i = .sendErr) →
      requestWithRetry transport B R =
        (.error .transport, (List.range (R - 1)).map (fun i => backoffMillis B i), R)) ∧
    (∀ k j, k < R → (∀ i, i < k → transport i = .sendErr) →
      transport k = .ok (some j) →
      requestWithRetry transport B R =
        (.ok j, (List.range k).map (fun i => backoffMillis B i), k + 1)) := by
  constructor
  · intro hfail
    have h := requestLoop_allFail transport B R R 0 (by omega) hR (fun i _ h2 => hfail i h2)
    unfold requestWithRetry
    rw [h, List.range_eq_range']
    simp
  · intro k j hk hfail hok
    have h := requestLoop_firstOk transport B R (some j) k R 0 (by omega) (by omega) hk
      (fun i _ h2 => hfail i h2) hok
    unfold requestWithRetry
    rw [h, List.range_eq_range']
    simp

/-- Witness for C2: with retryCount 3 and backoffBase 500, a transport
failing every attempt gives 3 attempts and sleeps [500, 1000] (never a
third sleep); one failing on attempts 0 and 1 and succeeding on attempt 2
returns the success payload of attempt 2 after the same sleeps. -/
theorem requestWithRetry_backoff_schedule_witness :
    requestWithRetry tFailAll 500 3 = (.error .transport, [500, 1000], 3) ∧
    requestWithRetry tSucceedAt2 500 3 = (.ok (.str "payload"), [500, 1000], 3) := by
  constructor
  · have h := (requestWithRetry_backoff_schedule tFailAll 500 3 (by omega)).1
      (fun i _ => rfl)
    rw [h]
    rfl
  · have h := (requestWithRetry_backoff_schedule tSucceedAt2 500 3 (by omega)).2 2
      (.str "payload") (by omega) (fun i hi => by simp [tSucceedAt2, hi]) rfl
    rw [h]
    rfl

/-- C2 counterexample: the slept duration is the u64-wrapped product,
not the unbounded B * 2 ^ attempt.  With backoff base 1, retry count 66
(representable: retry_count is a u8) and a transport that always fails,
the sleep before attempt 65 is 0 milliseconds — 2 ^ 64 wrapped to zero —
while the claimed schedule demands 1 * 2 ^ 64. -/
theorem backoff_overflow_wraps_cex :
    (requestWithRetry tFailAll 1 66).2.1[64]? = some 0 ∧
    (0 : Nat) ≠ 1 * 2 ^ 64 := by
  refine ⟨?_, by norm_num⟩
  rfl

/-- C4 counterexample: an HTTP-successful response whose body is not
deserializable is NOT retried.  With retryCount 3 and backoffBase 500,
a transport whose attempt 0 (not the last attempt) returns a
non-deserializable body makes the call fail after exactly one attempt
with no backoff sleep, where the claim demands a retry. -/
theorem nonDeserializable_body_not_retried_cex :
    requestWithRetry (fun _ => .ok none) 500 3 = (.error .decode, [], 1) := rfl

/-- C4 (amended): the retried failures are exactly the send-level ones
(connection error, timeout).  As soon as an attempt k gets an HTTP
response, the call stops at attempt k with k + 1 attempts and sleeps only
for the failed attempts before k, whatever the payload: a deserializable
body is returned, a non-deserializable one surfaces the decode error
immediately, and at the agent level no further attempt is made even when
the payload later fails semantic parsing. -/
theorem retried_failures_are_send_failures (transport : Nat → SendResult)
    (B R k : Nat) (b : Option Json) (hR : 1 ≤ R) (hk : k < R)
    (hfail : ∀ i, i < k → transport i = .sendErr) (hok : transport k = .ok b) :
    requestWithRetry transport B R =
      ((match b with | some j => .ok j | none => .error .decode),
       (List.range k).map (fun i => backoffMillis B i), k + 1) ∧
    ∀ (env : Env) (a : Agent) (fc : Option String),
      a.backoff_base = B → a.retry_count = R →
      (a.sendRequest env transport fc).request = none ∨
        (a.sendRequest env transport fc).attempts = k + 1 := by
  have hmain : requestWithRetry transport B R =
      ((match b with | some j => .ok j | none => .error .decode),
       (List.range k).map (fun i => backoffMillis B i), k + 1) := by
    have h := requestLoop_firstOk transport B R b k R 0 (by omega) (by omega) hk
      (fun i _ h2 => hfail i h2) hok
    unfold requestWithRetry
    rw [h, List.range_eq_range']
    cases b <;> simp
  refine ⟨hmain, ?_⟩
  intro env a fc hB hRc
  cases hd : a.dispatch (a.commonBody env fc) with
  | error e =>
      left
      rw [sendRequest_eq_of_dispatch_err env a transport fc e hd]
  | ok v =>
      right
      obtain ⟨url, sb⟩ := v
      rw [sendRequest_eq_of_dispatch_ok env a transport fc url sb hd]
      show (requestWithRetry transport a.backoff_base a.retry_count).2.2 = k + 1
      rw [hB, hRc, hmain]

/-- Witness for C4 (amended): a transport whose first attempt returns a
non-deserializable body stops after exactly one attempt, and the openai
agent issues exactly one attempt there as well. -/
theorem retried_failures_are_send_failures_witness :
    requestWithRetry (fun _ => SendResult.ok none) 500 3 = (.error .decode, [], 1) ∧
    (agentOpenai.sendRequest env0 (fun _ => SendResult.ok none) none).attempts = 1 := by
  have h := retried_failures_are_send_failures (fun _ => SendResult.ok none) 500 3 0 none
    (by omega) (by omega) (fun i hi => absurd hi (by omega)) rfl
  refine ⟨h.1, ?_⟩
  cases h.2 env0 agentOpenai none rfl rfl with
  | inl hnone =>
      have hsome : (agentOpenai.sendRequest env0 (fun _ => SendResult.ok none) none).request.isSome = true := rfl
      rw [hnone] at hsome
      cases hsome
  | inr hatt => exact hatt

/-- The google branch of the dispatch with the key present: the call
targets the generateMessage URL carrying the key as a query-string
parameter and sends the author/content body. -/
theorem dispatch_google_some (a : Agent) (gkey : String) (body : Json)
    (hp : a.provider = "google") (hk : a.google_api_key = some gkey) :
    a.dispatch body = .ok (googleUrlBase ++ gkey, a.googleBody) := by
  unfold Agent.dispatch
  rw [hp, hk]
  rfl

/-- C1 (amended): a successful sendRequest returns exactly one reply Turn
parsed from the wire, but appends nothing: the conversation after the
call equals the conversation before it (same length, same turns); no
other agent state exists to be touched. -/
theorem sendRequest_success_returns_without_append (env : Env) (a : Agent)
    (transport : Nat → SendResult) (func_call : Option String) (msg : ChatMessage)
    (h : (a.sendRequest env transport func_call).result = .ok msg) :
    (a.sendRequest env transport func_call).conversationAfter = a.conversation ∧
    (a.sendRequest env transport func_call).conversationAfter.length =
      a.conversation.length := by
  have hc := sendRequest_conversationAfter_eq env a transport func_call
  exact ⟨hc, by rw [hc]⟩

/-- Witness for C1 (amended): a concrete successful call whose history
length is unchanged. -/
theorem sendRequest_success_returns_without_append_witness :
    (agentOpenai.sendRequest env0 (tOk okResp) none).result =
      .ok ⟨"assistant", "ok", none⟩ ∧
    (agentOpenai.sendRequest env0 (tOk okResp) none).conversationAfter.length =
      agentOpenai.conversation.length :=
  ⟨rfl, (sendRequest_success_returns_without_append env0 agentOpenai (tOk okResp) none
    ⟨"assistant", "ok", none⟩ rfl).2⟩

/-- C1 counterexample: a successful sendRequest call after which the
history has the same length as before (1 turn, not 2), and whose returned
turn carries the role the wire supplied (neither assistant nor tool):
len(history_after) = len(history_before) + 1 fails, as does the role
constraint. -/
theorem sendRequest_success_appends_nothing_cex :
    (agentOpenai.sendRequest env0 (tOk oddRoleResp) none).result =
      .ok ⟨"tester", "ok", none⟩ ∧
    (agentOpenai.sendRequest env0 (tOk oddRoleResp) none).conversationAfter.length =
      agentOpenai.conversation.length ∧
    agentOpenai.conversation.length = 1 :=
  ⟨rfl, rfl, rfl⟩

/-- C3: a failed sendRequest (retries exhausted, malformed response, or
missing key) leaves the conversation exactly as it was: no mutation, no
partially written turn. -/
theorem sendRequest_failure_preserves_history (env : Env) (a : Agent)
    (transport : Nat → SendResult) (func_call : Option String) (e : ReqError)
    (h : (a.sendRequest env transport func_call).result = .error e) :
    (a.sendRequest env transport func_call).conversationAfter = a.conversation :=
  sendRequest_conversationAfter_eq env a transport func_call

/-- Witness for C3: a concrete exhausted-retries failure leaving the
history unchanged. -/
theorem sendRequest_failure_preserves_history_witness :
    (agentOpenai.sendRequest env0 tFailAll none).result = .error .transport ∧
    (agentOpenai.sendRequest env0 tFailAll none).conversationAfter =
      agentOpenai.conversation :=
  ⟨rfl, sendRequest_failure_preserves_history env0 agentOpenai tFailAll none .transport rfl⟩

/-- C6 (amended): every wire request that is issued, for every provider
variant including the local-daemon and structured-message ones, carries
the bearer-token header built from the api key (`bearer_auth` is applied
unconditionally in `request_with_retry`); the structured-message variant
additionally carries its key in the URL query string. -/
theorem every_wire_request_carries_bearer (env : Env) (a : Agent)
    (transport : Nat → SendResult) (func_call : Option String) (w : WireRequest)
    (h : (a.sendRequest env transport func_call).request = some w) :
    w.bearer = some a.api_key ∧
    (∀ gkey, a.provider = "google" → a.google_api_key = some gkey →
      w.url = googleUrlBase ++ gkey) := by
  constructor
  · cases hd : a.dispatch (a.commonBody env func_call) with
    | error e =>
        rw [sendRequest_eq_of_dispatch_err env a transport func_call e hd] at h
        exact Option.noConfusion h
    | ok v =>
        obtain ⟨url, sb⟩ := v
        rw [sendRequest_eq_of_dispatch_ok env a transport func_call url sb hd] at h
        injection h with h2
        rw [← h2]
  · intro gkey hp hk
    have hd := dispatch_google_some a gkey (a.commonBody env func_call) hp hk
    rw [sendRequest_eq_of_dispatch_ok env a transport func_call _ _ hd] at h
    injection h with h2
    rw [← h2]

/-- Witness for C6 (amended): the google agent request carries both the
bearer header and the query-string key. -/
theorem every_wire_request_carries_bearer_witness :
    (agentGoogle.sendRequest env0 (tOk okResp) none).request.map WireRequest.bearer =
      some (some "sk") ∧
    (agentGoogle.sendRequest env0 (tOk okResp) none).request.map WireRequest.url =
      some (googleUrlBase ++ "gk") := by
  have hw : (agentGoogle.sendRequest env0 (tOk okResp) none).request =
      some ⟨googleUrlBase ++ "gk", some "sk", agentGoogle.googleBody⟩ := rfl
  have h := every_wire_request_carries_bearer env0 agentGoogle (tOk okResp) none _ hw
  rw [hw]
  exact ⟨congrArg some h.1, congrArg some (h.2 "gk" rfl rfl)⟩

/-- C6 counterexample: the local-daemon (ollama) request carries the
bearer-token authentication header, and so does the structured-message
(google) request — neither variant omits it. -/
theorem local_daemon_request_carries_auth_cex :
    agentOllama.provider = "ollama" ∧
    (agentOllama.sendRequest env0 (tOk okResp) none).request.map WireRequest.bearer =
      some (some "sk") ∧
    (agentGoogle.sendRequest env0 (tOk okResp) none).request.map WireRequest.bearer =
      some (some "sk") :=
  ⟨rfl, rfl, rfl⟩

/-- C7 (amended): a missing GOOGLE_API_KEY does not prevent Agent
construction — `Agent::new` is total and seeds the usual system turn with
the key left as `None` — and the error surfaces during `send_request` for
the google provider, before any wire request is issued. -/
theorem missing_google_key_fails_at_send (env : Env) (api_key : String)
    (transport : Nat → SendResult) (func_call : Option String)
    (hk : env "GOOGLE_API_KEY" = none) :
    (Agent.new env api_key "google").google_api_key = none ∧
    (Agent.new env api_key "google").conversation = [⟨"system", systemPrompt, none⟩] ∧
    (Agent.new env api_key "google").sendRequest env transport func_call =
      { result := .error (.missingKey "GOOGLE_API_KEY"), request := none,
        sleeps := [], attempts := 0,
        conversationAfter := (Agent.new env api_key "google").conversation } := by
  refine ⟨hk, rfl, ?_⟩
  apply sendRequest_eq_of_dispatch_err
  unfold Agent.dispatch
  rw [show (Agent.new env api_key "google").provider = "google" from rfl,
    show (Agent.new env api_key "google").google_api_key = none from hk]
  rfl

/-- Witness for C7 (amended): the empty environment. -/
theorem missing_google_key_fails_at_send_witness :
    env0 "GOOGLE_API_KEY" = none ∧
    (Agent.new env0 "sk" "google").sendRequest env0 tFailAll none =
      { result := .error (.missingKey "GOOGLE_API_KEY"), request := none,
        sleeps := [], attempts := 0,
        conversationAfter := (Agent.new env0 "sk" "google").conversation } :=
  ⟨rfl, (missing_google_key_fails_at_send env0 "sk" tFailAll none rfl).2.2⟩

/-- C7 counterexample: with GOOGLE_API_KEY absent from the environment,
constructing a google Agent succeeds (an Agent value with the seeded
system turn and no key results, not a configuration error), and the
missing-key error is raised later, by `send_request`. -/
theorem google_construction_succeeds_cex :
    agentGoogleNoKey.google_api_key = none ∧
    agentGoogleNoKey.conversation = [sysTurn] ∧
    (agentGoogleNoKey.sendRequest env0 (tOk okResp) none).result =
      .error (.missingKey "GOOGLE_API_KEY") ∧
    (agentGoogleNoKey.sendRequest env0 (tOk okResp) none).request = none ∧
    (agentGoogleNoKey.sendRequest env0 (tOk okResp) none).attempts = 0 :=
  ⟨rfl, rfl, rfl, rfl, rfl⟩

/-- C8 (amended): the response extraction is shared by all variants: a
wire response with no usable `choices[0]` AND no `completion` string
yields the malformed-response error — under the completions-style
variant (openai) and the alternate-prose variant (claude) alike.  A
response missing only one of the two falls into the other branch, so
absence of both is what MalformedResponse detection requires. -/
theorem parse_malformed_needs_both_absent (j : Json)
    (h1 : (j.getField "choices").asArr.bind List.head? = none)
    (h2 : (j.getField "completion").asStr = none) :
    parseResponse j = .error .malformed ∧
    (agentOpenai.sendRequest env0 (tOk j) none).result = .error .malformed ∧
    (agentClaude.sendRequest env0 (tOk j) none).result = .error .malformed := by
  have hp : parseResponse j = .error .malformed := by
    unfold parseResponse
    rw [h1, h2]
  refine ⟨hp, ?_, ?_⟩
  · have hd : agentOpenai.dispatch (agentOpenai.commonBody env0 none) =
        .ok ("https://api.openai.com/v1/chat/completions",
          agentOpenai.commonBody env0 none) := rfl
    rw [sendRequest_eq_of_dispatch_ok env0 agentOpenai (tOk j) none _ _ hd]
    have hr : (requestWithRetry (tOk j) agentOpenai.backoff_base
        agentOpenai.retry_count).1 = .ok j := rfl
    show (match (requestWithRetry (tOk j) agentOpenai.backoff_base
        agentOpenai.retry_count).1 with
      | .error e => Except.error e
      | .ok rj => parseResponse rj) = .error .malformed
    rw [hr]
    exact hp
  · have hd : agentClaude.dispatch (agentClaude.commonBody env0 none) =
        .ok ("https://api.anthropic.com/v1/complete", agentClaude.claudeBody) := rfl
    rw [sendRequest_eq_of_dispatch_ok env0 agentClaude (tOk j) none _ _ hd]
    have hr : (requestWithRetry (tOk j) agentClaude.backoff_base
        agentClaude.retry_count).1 = .ok j := rfl
    show (match (requestWithRetry (tOk j) agentClaude.backoff_base
        agentClaude.retry_count).1 with
      | .error e => Except.error e
      | .ok rj => parseResponse rj) = .error .malformed
    rw [hr]
    exact hp

/-- Witness for C8 (amended): the empty JSON object response. -/
theorem parse_malformed_needs_both_absent_witness :
    ((Json.obj []).getField "choices").asArr.bind List.head? = none ∧
    ((Json.obj []).getField "completion").asStr = none ∧
    parseResponse (Json.obj []) = .error .malformed ∧
    (agentOpenai.sendRequest env0 (tOk (Json.obj [])) none).result = .error .malformed ∧
    (agentClaude.sendRequest env0 (tOk (Json.obj [])) none).result = .error .malformed :=
  ⟨rfl, rfl, (parse_malformed_needs_both_absent (Json.obj []) rfl rfl).1,
   (parse_malformed_needs_both_absent (Json.obj []) rfl rfl).2.1,
   (parse_malformed_needs_both_absent (Json.obj []) rfl rfl).2.2⟩

/-- C8 counterexample: under the completions-style variant, a wire
response whose `choices` is the empty array does NOT yield
MalformedResponse when a `completion` string is also present: the parser
falls back to the completion branch and silently returns an assistant
reply. -/
theorem empty_choices_with_completion_cex :
    emptyChoicesResp.getField "choices" = .arr [] ∧
    agentOpenai.provider = "openai" ∧
    (agentOpenai.sendRequest env0 (tOk emptyChoicesResp) none).result =
      .ok ⟨"assistant", "hi", none⟩ :=
  ⟨rfl, rfl, rfl⟩

/-- C9: the structured-message (google) wire request body renders the
history as an array of author/content pairs under the `messages` key and
carries no tools/functions field — whatever the tool catalog holds — and
no max-tokens or temperature field. -/
theorem google_request_omits_tools_and_limits (env : Env) (a : Agent)
    (transport : Nat → SendResult) (func_call : Option String) (w : WireRequest)
    (gkey : String) (hp : a.provider = "google") (hk : a.google_api_key = some gkey)
    (hw : (a.sendRequest env transport func_call).request = some w) :
    w.body = Json.obj [("messages", Json.arr (a.conversation.map (fun m =>
      Json.obj [("author", Json.str m.role), ("content", Json.str m.content)])))] ∧
    w.body.hasField "tools" = false ∧
    w.body.hasField "functions" = false ∧
    w.body.hasField "max_tokens" = false ∧
    w.body.hasField "temperature" = false := by
  have hd := dispatch_google_some a gkey (a.commonBody env func_call) hp hk
  rw [sendRequest_eq_of_dispatch_ok env a transport func_call _ _ hd] at hw
  injection hw with hw
  subst hw
  exact ⟨rfl, rfl, rfl, rfl, rfl⟩

/-- The wire request the google witness agent issues. -/
def wireG : WireRequest := ⟨googleUrlBase ++ "gk", some "sk", agentGoogle.googleBody⟩

/-- Witness for C9: the google agent carries the full seven-entry tool
catalog, and its rendered request still has no tools, functions,
max_tokens or temperature key. -/
theorem google_request_omits_tools_and_limits_witness :
    agentGoogle.functions.length = 7 ∧
    (agentGoogle.sendRequest env0 (tOk okResp) none).request = some wireG ∧
    wireG.body.hasField "tools" = false ∧
    wireG.body.hasField "functions" = false ∧
    wireG.body.hasField "max_tokens" = false ∧
    wireG.body.hasField "temperature" = false := by
  have hw : (agentGoogle.sendRequest env0 (tOk okResp) none).request = some wireG := rfl
  have h := google_request_omits_tools_and_limits env0 agentGoogle (tOk okResp) none
    wireG "gk" rfl rfl hw
  exact ⟨rfl, hw, h.2.1, h.2.2.1, h.2.2.2.1, h.2.2.2.2⟩

/-- Position lookup into the spawned batch tasks: task `i` is the send
of a fresh clone seeded with prompt `i`, run against `transports (idx + i)`. -/
theorem batchOutcomes_getElem (env : Env) (a : Agent)
    (transports : Nat → Nat → SendResult) :
    ∀ (ps : List String) (idx i : Nat),
      (a.batchOutcomes env transports ps idx)[i]? =
        (ps[i]?).map (fun p =>
          (a.cloneForBatch env p).sendRequest env (transports (idx + i)) none) := by
  intro ps
  induction ps with
  | nil => intro idx i; simp [Agent.batchOutcomes]
  | cons p ps ih =>
      intro idx i
      cases i with
      | zero => simp [Agent.batchOutcomes]
      | succ i =>
          have h : idx + 1 + i = idx + (i + 1) := by omega
          simp only [Agent.batchOutcomes, List.getElem?_cons_succ]
          rw [ih (idx + 1) i, h]

/-- One spawned task per prompt. -/
theorem batchOutcomes_length (env : Env) (a : Agent)
    (transports : Nat → Nat → SendResult) :
    ∀ (ps : List String) (idx : Nat),
      (a.batchOutcomes env transports ps idx).length = ps.length := by
  intro ps
  induction ps with
  | nil => intro idx; rfl
  | cons p ps ih => intro idx; simp [Agent.batchOutcomes, ih]

/-- Every element of a list is either kept by `filterMap` (successes) or
counted by the failure filter, so the two counts sum to the length. -/
theorem length_filterMap_add_filter (l : List SendOutcome) :
    (l.filterMap (fun o => exceptToOption o.result)).length +
      (l.filter (fun o => (exceptToOption o.result).isNone)).length = l.length := by
  induction l with
  | nil => rfl
  | cons o l ih =>
      cases ho : exceptToOption o.result with
      | some m =>
          simp only [List.filterMap_cons, List.filter_cons, ho, Option.isNone_some,
            Bool.false_eq_true, if_false, List.length_cons]
          omega
      | none =>
          simp only [List.filterMap_cons, List.filter_cons, ho, Option.isNone_none,
            if_true, List.length_cons]
          omega

/-- The clone built for a batch prompt starts from exactly two turns: the
head (system) turn of the parent conversation and one user turn holding
the prompt. -/
theorem cloneForBatch_conversation (env : Env) (a : Agent) (p : String)
    (sys : ChatMessage) (rest : List ChatMessage) (hconv : a.conversation = sys :: rest) :
    (a.cloneForBatch env p).conversation = [sys, ⟨"user", p, none⟩] := by
  have h0 : (a.cloneForBatch env p).conversation =
      [a.conversation.headD ⟨"system", systemPrompt, none⟩, ⟨"user", p, none⟩] := rfl
  rw [h0, hconv]
  rfl

/-- C5 (amended): per-task failures are swallowed — the number of batch
results plus the number of failed tasks equals the number of prompts, so
a failed task contributes no entry and never aborts the batch — and each
task runs on a fresh Agent whose history after the call is exactly its
own system turn plus its own user prompt (the reply is returned, not
appended), never text from another prompt. -/
theorem sendBatchRequests_isolated_and_lossy (env : Env) (a : Agent)
    (transports : Nat → Nat → SendResult) (prompts : List String)
    (sys : ChatMessage) (rest : List ChatMessage)
    (hconv : a.conversation = sys :: rest) :
    (∀ (i : Nat) (p : String), prompts[i]? = some p →
      ((a.batchOutcomes env transports prompts 0)[i]?).map SendOutcome.conversationAfter =
        some [sys, ⟨"user", p, none⟩]) ∧
    (a.sendBatchRequests env transports prompts).length +
      ((a.batchOutcomes env transports prompts 0).filter
        (fun o => (exceptToOption o.result).isNone)).length = prompts.length := by
  constructor
  · intro i p hp
    rw [batchOutcomes_getElem env a transports prompts 0 i, hp]
    simp only [Option.map_some']
    rw [sendRequest_conversationAfter_eq, cloneForBatch_conversation env a p sys rest hconv]
  · rw [← batchOutcomes_length env a transports prompts 0]
    exact length_filterMap_add_filter _

/-- Witness for C5 (amended): a three-prompt batch whose middle task
always fails gives exactly two results, and each spawned history holds
only its own prompt. -/
theorem sendBatchRequests_isolated_and_lossy_witness :
    agentOpenai.conversation = sysTurn :: [] ∧
    ((agentOpenai.batchOutcomes env0 transports3 ["pa", "pb", "pc"] 0)[0]?).map
      SendOutcome.conversationAfter = some [sysTurn, ⟨"user", "pa", none⟩] ∧
    ((agentOpenai.batchOutcomes env0 transports3 ["pa", "pb", "pc"] 0)[2]?).map
      SendOutcome.conversationAfter = some [sysTurn, ⟨"user", "pc", none⟩] ∧
    (agentOpenai.sendBatchRequests env0 transports3 ["pa", "pb", "pc"]).length = 2 := by
  have h := sendBatchRequests_isolated_and_lossy env0 agentOpenai transports3
    ["pa", "pb", "pc"] sysTurn [] rfl
  refine ⟨rfl, h.1 0 "pa" rfl, h.1 2 "pc" rfl, ?_⟩
  have h2 := h.2
  have h3 : ((agentOpenai.batchOutcomes env0 transports3 ["pa", "pb", "pc"] 0).filter
      (fun o => (exceptToOption o.result).isNone)).length = 1 := rfl
  have h4 : (["pa", "pb", "pc"] : List String).length = 3 := rfl
  omega

/-- C5 counterexample: the first task of a concrete batch succeeds (its
result is collected), yet its history after the call is exactly the
system turn plus its own user prompt — two turns, with no reply turn
appended, where the claim demands system + prompt + reply. -/
theorem batch_history_lacks_reply_cex :
    ((agentOpenai.batchOutcomes env0 transports3 ["pa", "pb", "pc"] 0)[0]?).map
      (fun o => (exceptToOption o.result).isSome) = some true ∧
    ((agentOpenai.batchOutcomes env0 transports3 ["pa", "pb", "pc"] 0)[0]?).map
      (fun o => o.conversationAfter) = some [sysTurn, ⟨"user", "pa", none⟩] ∧
    ((agentOpenai.batchOutcomes env0 transports3 ["pa", "pb", "pc"] 0)[0]?).map
      (fun o => o.conversationAfter.length) = some 2 :=
  ⟨rfl, rfl, rfl⟩

/-- Specification-side definition for the ordering claim, written from
its words: pair every prompt with its submission index, walk the pairs in
submission order, and keep the successful reply of the task launched for
each prompt, skipping failed tasks. -/
def batchResultsInPromptOrder (env : Env) (a : Agent)
    (transports : Nat → Nat → SendResult) (prompts : List String) : List ChatMessage :=
  prompts.enum.filterMap (fun ip =>
    exceptToOption ((a.cloneForBatch env ip.2).sendRequest env (transports ip.1) none).result)

/-- The collected successes of the spawned tasks are the in-order
successes of the per-index tasks. -/
theorem batchOutcomes_filterMap_enumFrom (env : Env) (a : Agent)
    (transports : Nat → Nat → SendResult) :
    ∀ (ps : List String) (idx : Nat),
      (a.batchOutcomes env transports ps idx).filterMap
          (fun o => exceptToOption o.result) =
        (List.enumFrom idx ps).filterMap (fun ip =>
          exceptToOption ((a.cloneForBatch env ip.2).sendRequest env
            (transports ip.1) none).result) := by
  intro ps
  induction ps with
  | nil => intro idx; rfl
  | cons p ps ih =>
      intro idx
      simp only [Agent.batchOutcomes, List.enumFrom_cons, List.filterMap_cons, ih (idx + 1)]

/-- C10: the successful results returned by the batch call appear in the
same relative order as their originating prompts — `send_batch_requests`
equals the specification-side in-prompt-order collection. -/
theorem sendBatchRequests_preserves_prompt_order (env : Env) (a : Agent)
    (transports : Nat → Nat → SendResult) (prompts : List String) :
    a.sendBatchRequests env transports prompts =
      batchResultsInPromptOrder env a transports prompts :=
  batchOutcomes_filterMap_enumFrom env a transports prompts 0
